import Mathlib

/-
Verification of the `user-defined-metadata` sensor model
(src/src/models/user_defined_metadata.py) against its specification.

The Python module is glue code around a remote cloud client: a lazily
memoized client handle (`_get_viam_client`), a read path (`get_readings`),
a command dispatcher (`do_command`) and an unimplemented geometry stub
(`get_geometries`).  We embed it shallowly: Python values become the
inductive `Value`, the process environment becomes an association list,
the remote client becomes an oracle record `Remote` of `Except`-valued
operations, exceptions become the inductive `Exc`, and every method is a
pure function returning its result together with the successor instance
state and a trace of observable side effects (`Event`).
-/

namespace ViamUserMetadata

/-- A Python runtime value, as far as this module inspects values:
`None`, booleans, integers, strings, lists and string-keyed dicts. -/
inductive Value where
  | none
  | bool (b : Bool)
  | int (n : Int)
  | str (s : String)
  | list (xs : List Value)
  | dict (entries : List (String × Value))

/-- Python `v == "lit"` for a string literal: true exactly when `v` is
that string (no other runtime type compares equal to a `str`). -/
def Value.eqStr : Value → String → Bool
  | Value.str s, t => s == t
  | _, _ => false

/-- Python exceptions raised or caught by the module. -/
inductive Exc where
  | valueError (msg : String)
  | attributeError (msg : String)
  | notImplementedError
  | connectionError (msg : String)
  | otherError (msg : String)
deriving DecidableEq

/-- Python `str(e)` on a caught exception, as interpolated into error messages. -/
def Exc.message : Exc → String
  | .valueError m => m
  | .attributeError m => m
  | .notImplementedError => ""
  | .connectionError m => m
  | .otherError m => m

/-- Observable side effects of a call: environment reads, connection
establishment, and the four remote metadata operations. -/
inductive Event where
  | readEnv (name : String)
  | connect
  | getRobotMetadata (id : String)
  | getRobotPartMetadata (id : String)
  | updateRobotMetadata (id : String)
  | updateRobotPartMetadata (id : String)
deriving DecidableEq

/-- The process environment: `os.getenv` returns `none` for an unset
variable. -/
abbrev Env := List (String × String)

/-- `os.getenv(k)`. -/
def getenv (env : Env) (k : String) : Option String :=
  env.lookup k

/-- Python truthiness of an `os.getenv` result: `not x` holds exactly
when the variable is unset or the empty string. -/
def optFalsy : Option String → Bool
  | Option.none => true
  | Option.some s => s == ""

/-- The remote cloud client, as an oracle: each operation either returns
a value or raises.  `connect` models `ViamClient.create_from_dial_options`;
the client object itself is modelled by a `Nat` identity. -/
structure Remote where
  connect : Except Exc Nat
  get_robot_metadata : String → Except Exc Value
  get_robot_part_metadata : String → Except Exc Value
  update_robot_metadata : String → Value → Except Exc Unit
  update_robot_part_metadata : String → Value → Except Exc Unit

/-- The mutable state of one `UserDefinedMetadata` instance:
`self._viam_client`, set to `None` by `__init__`. -/
structure SensorState where
  viam_client : Option Nat
deriving DecidableEq

/-- Model of `UserDefinedMetadata.__init__`: the client handle starts unset. -/
def initState : SensorState := { viam_client := Option.none }

/-- Python `dict.get(k)` (default `None`). -/
def dictGet (entries : List (String × Value)) (k : String) : Value :=
  match entries.lookup k with
  | Option.some v => v
  | Option.none => Value.none

/-- Python `dict.get(k, d)`. -/
def dictGetD (entries : List (String × Value)) (k : String) (d : Value) : Value :=
  match entries.lookup k with
  | Option.some v => v
  | Option.none => d

/-- Python `isinstance(v, dict)`. -/
def Value.isDict : Value → Bool
  | Value.dict _ => true
  | _ => false

/-- The Python type name, as it appears in `AttributeError` messages. -/
def pyType : Value → String
  | Value.none => "NoneType"
  | Value.bool _ => "bool"
  | Value.int _ => "int"
  | Value.str _ => "str"
  | Value.list _ => "list"
  | Value.dict _ => "dict"

mutual
/-- Python `repr`, used for values nested inside containers. -/
def pyRepr : Value → String
  | Value.none => "None"
  | Value.bool true => "True"
  | Value.bool false => "False"
  | Value.int n => toString n
  | Value.str s => "\x27" ++ s ++ "\x27"
  | Value.list xs => "[" ++ pyReprList xs ++ "]"
  | Value.dict es => "\x7b" ++ pyReprEntries es ++ "\x7d"

/-- Python `repr` of list elements, comma separated. -/
def pyReprList : List Value → String
  | [] => ""
  | [v] => pyRepr v
  | v :: rest => pyRepr v ++ ", " ++ pyReprList rest

/-- Python `repr` of dict entries, comma separated. -/
def pyReprEntries : List (String × Value) → String
  | [] => ""
  | [(k, v)] => "\x27" ++ k ++ "\x27: " ++ pyRepr v
  | (k, v) :: rest => "\x27" ++ k ++ "\x27: " ++ pyRepr v ++ ", " ++ pyReprEntries rest
end

/-- Python `str`, as interpolated into f-strings: strings verbatim,
other values via `repr`. -/
def pyStr : Value → String
  | Value.str s => s
  | v => pyRepr v

/-- The `ValueError` message raised when the credential environment
variables are missing (user_defined_metadata.py line 36). -/
def credsMsg : String :=
  "VIAM_API_KEY and VIAM_API_KEY_ID environment variables must be set"

/-- Model of `UserDefinedMetadata._get_viam_client` (lines 28-45): return the
memoized client if set; otherwise read the two credential variables,
raise `ValueError` if either is falsy, else connect and store the new
client.  Returns the outcome, the successor state and the event trace. -/
def _get_viam_client (env : Env) (remote : Remote) (st : SensorState) :
    Except Exc Nat × SensorState × List Event :=
  match st.viam_client with
  | Option.some c => (Except.ok c, st, [])
  | Option.none =>
      let api_key := getenv env "VIAM_API_KEY"
      let api_key_id := getenv env "VIAM_API_KEY_ID"
      let ev := [Event.readEnv "VIAM_API_KEY", Event.readEnv "VIAM_API_KEY_ID"]
      if optFalsy api_key || optFalsy api_key_id then
        (Except.error (Exc.valueError credsMsg), st, ev)
      else
        match remote.connect with
        | Except.error e => (Except.error e, st, ev ++ [Event.connect])
        | Except.ok c =>
            (Except.ok c, { viam_client := Option.some c }, ev ++ [Event.connect])

/-- The body of the `try` block of `UserDefinedMetadata.get_readings`
(lines 104-124): read the two identity variables, raise if either is
falsy, obtain the client, fetch robot then part metadata, and return the
two-key mapping. -/
def get_readings_try (env : Env) (remote : Remote) (st : SensorState) :
    Except Exc Value × SensorState × List Event :=
  let robot_id := getenv env "VIAM_MACHINE_ID"
  let robot_part_id := getenv env "VIAM_MACHINE_PART_ID"
  let ev0 := [Event.readEnv "VIAM_MACHINE_ID", Event.readEnv "VIAM_MACHINE_PART_ID"]
  if optFalsy robot_id then
    (Except.error (Exc.valueError "VIAM_MACHINE_ID environment variable is required"), st, ev0)
  else if optFalsy robot_part_id then
    (Except.error (Exc.valueError "VIAM_MACHINE_PART_ID environment variable is required"), st, ev0)
  else
    let rid := robot_id.getD ""
    let pid := robot_part_id.getD ""
    match _get_viam_client env remote st with
    | (Except.error e, st1, ev1) => (Except.error e, st1, ev0 ++ ev1)
    | (Except.ok _, st1, ev1) =>
        match remote.get_robot_metadata rid with
        | Except.error e =>
            (Except.error e, st1, ev0 ++ ev1 ++ [Event.getRobotMetadata rid])
        | Except.ok robot_metadata =>
            match remote.get_robot_part_metadata pid with
            | Except.error e =>
                (Except.error e, st1,
                 ev0 ++ ev1 ++ [Event.getRobotMetadata rid, Event.getRobotPartMetadata pid])
            | Except.ok part_metadata =>
                (Except.ok (Value.dict [("robot", robot_metadata), ("part", part_metadata)]),
                 st1,
                 ev0 ++ ev1 ++ [Event.getRobotMetadata rid, Event.getRobotPartMetadata pid])

/-- Model of `UserDefinedMetadata.get_readings` (lines 91-132): the `try` body
wrapped in `except Exception`, which logs and returns the empty
document pair.  The total return type records that this method never
raises to its caller. -/
def get_readings (env : Env) (remote : Remote) (st : SensorState) :
    Value × SensorState × List Event :=
  match get_readings_try env remote st with
  | (Except.ok v, st1, ev) => (v, st1, ev)
  | (Except.error _, st1, ev) =>
      (Value.dict [("robot", Value.dict []), ("part", Value.dict [])], st1, ev)

/-- The body of the `try` block of `UserDefinedMetadata.do_command`
(lines 157-206): validate the command shape (dict, command name, scope,
metadata, identity variables, in that order, raising `ValueError` on the
first violation), then obtain the client and dispatch the update by
scope, returning the success envelope. -/
def do_command_try (env : Env) (remote : Remote) (st : SensorState) (command : Value) :
    Except Exc Value × SensorState × List Event :=
  match command with
  | Value.dict entries =>
      let cmd := dictGet entries "command"
      let scope := dictGet entries "scope"
      let metadata := dictGet entries "metadata"
      if !(cmd.eqStr "update") then
        (Except.error (Exc.valueError
          ("Unsupported command: " ++ pyStr cmd ++ ". Only \x27update\x27 is supported.")),
         st, [])
      else if !(scope.eqStr "part") && !(scope.eqStr "robot") then
        (Except.error (Exc.valueError
          ("Invalid scope: " ++ pyStr scope ++ ". Must be \x27part\x27 or \x27robot\x27.")),
         st, [])
      else if !metadata.isDict then
        (Except.error (Exc.valueError "metadata must be a dictionary"), st, [])
      else
        let robot_id := getenv env "VIAM_MACHINE_ID"
        let robot_part_id := getenv env "VIAM_MACHINE_PART_ID"
        let ev0 := [Event.readEnv "VIAM_MACHINE_ID", Event.readEnv "VIAM_MACHINE_PART_ID"]
        if optFalsy robot_id then
          (Except.error (Exc.valueError "VIAM_MACHINE_ID environment variable is required"),
           st, ev0)
        else if optFalsy robot_part_id then
          (Except.error (Exc.valueError "VIAM_MACHINE_PART_ID environment variable is required"),
           st, ev0)
        else
          let rid := robot_id.getD ""
          let pid := robot_part_id.getD ""
          match _get_viam_client env remote st with
          | (Except.error e, st1, ev1) => (Except.error e, st1, ev0 ++ ev1)
          | (Except.ok _, st1, ev1) =>
              if scope.eqStr "robot" then
                match remote.update_robot_metadata rid metadata with
                | Except.error e =>
                    (Except.error e, st1, ev0 ++ ev1 ++ [Event.updateRobotMetadata rid])
                | Except.ok _ =>
                    (Except.ok (Value.dict
                      [("success", Value.bool true),
                       ("message", Value.str "Robot metadata updated successfully"),
                       ("scope", Value.str "robot"),
                       ("robot_id", Value.str rid)]),
                     st1, ev0 ++ ev1 ++ [Event.updateRobotMetadata rid])
              else if scope.eqStr "part" then
                match remote.update_robot_part_metadata pid metadata with
                | Except.error e =>
                    (Except.error e, st1, ev0 ++ ev1 ++ [Event.updateRobotPartMetadata pid])
                | Except.ok _ =>
                    (Except.ok (Value.dict
                      [("success", Value.bool true),
                       ("message", Value.str "Robot part metadata updated successfully"),
                       ("scope", Value.str "part"),
                       ("robot_part_id", Value.str pid)]),
                     st1, ev0 ++ ev1 ++ [Event.updateRobotPartMetadata pid])
              else
                (Except.ok Value.none, st1, ev0 ++ ev1)
  | _ => (Except.error (Exc.valueError "Command must be a dictionary"), st, [])

/-- The structured failure envelope built by `do_command`'s `except`
handler for a dict command (lines 208-216). -/
def failResult (entries : List (String × Value)) (e : Exc) : Value :=
  Value.dict
    [("success", Value.bool false),
     ("error", Value.str ("Error updating metadata: " ++ e.message)),
     ("scope", dictGetD entries "scope" (Value.str "unknown")),
     ("command", dictGetD entries "command" (Value.str "unknown"))]

/-- Model of `UserDefinedMetadata.do_command` (lines 134-216): the `try` body
wrapped in `except Exception as e`.  The handler itself calls
`command.get(...)`, which on a non-dict command raises `AttributeError`
out of the handler, so the overall outcome is still `Except`-valued. -/
def do_command (env : Env) (remote : Remote) (st : SensorState) (command : Value) :
    Except Exc Value × SensorState × List Event :=
  match do_command_try env remote st command with
  | (Except.ok v, st1, ev) => (Except.ok v, st1, ev)
  | (Except.error e, st1, ev) =>
      match command with
      | Value.dict entries => (Except.ok (failResult entries e), st1, ev)
      | _ =>
          (Except.error (Exc.attributeError
            ("\x27" ++ pyType command ++ "\x27 object has no attribute \x27get\x27")),
           st1, ev)

/-- Model of `UserDefinedMetadata.get_geometries` (lines 218-222): logs an error
and raises `NotImplementedError`, touching no state. -/
def get_geometries (st : SensorState) : Except Exc (List Value) × SensorState × List Event :=
  (Except.error Exc.notImplementedError, st, [])

/-- Spec-side definition, for comparison with `do_command_try`: the first
violated validation check of the dispatcher, in the order the
specification fixes them — command is a mapping, command name is
"update", scope is recognized, metadata is a mapping, identity
environment variables are present — together with that check's error. -/
def firstValidationFailure (command : Value) (env : Env) : Option Exc :=
  match command with
  | Value.dict entries =>
      let cmd := dictGet entries "command"
      let scope := dictGet entries "scope"
      let metadata := dictGet entries "metadata"
      if !(cmd.eqStr "update") then
        Option.some (Exc.valueError
          ("Unsupported command: " ++ pyStr cmd ++ ". Only \x27update\x27 is supported."))
      else if !(scope.eqStr "part") && !(scope.eqStr "robot") then
        Option.some (Exc.valueError
          ("Invalid scope: " ++ pyStr scope ++ ". Must be \x27part\x27 or \x27robot\x27."))
      else if !metadata.isDict then
        Option.some (Exc.valueError "metadata must be a dictionary")
      else if optFalsy (getenv env "VIAM_MACHINE_ID") then
        Option.some (Exc.valueError "VIAM_MACHINE_ID environment variable is required")
      else if optFalsy (getenv env "VIAM_MACHINE_PART_ID") then
        Option.some (Exc.valueError "VIAM_MACHINE_PART_ID environment variable is required")
      else
        Option.none
  | _ => Option.some (Exc.valueError "Command must be a dictionary")

/-- Whether an event is a mere environment read (as opposed to a
connection or remote metadata operation). -/
def Event.isEnvRead : Event → Bool
  | Event.readEnv _ => true
  | _ => false

/-- Whether an `Except` outcome is a raised `ConnectionError`. -/
def raisesConnectionError (r : Except Exc Nat) : Bool :=
  match r with
  | Except.error (Exc.connectionError _) => true
  | _ => false

/-- Test fixture: a fully populated environment. -/
def envFull : Env :=
  [("VIAM_API_KEY", "key"), ("VIAM_API_KEY_ID", "keyid"),
   ("VIAM_MACHINE_ID", "m1"), ("VIAM_MACHINE_PART_ID", "p1")]

/-- Test fixture: environment with `VIAM_MACHINE_ID` unset. -/
def envNoMachineId : Env :=
  [("VIAM_API_KEY", "key"), ("VIAM_API_KEY_ID", "keyid"),
   ("VIAM_MACHINE_PART_ID", "p1")]

/-- Test fixture: a remote client that connects as client `7` and
accepts every operation. -/
def remoteOk : Remote :=
  { connect := Except.ok 7,
    get_robot_metadata := fun _ => Except.ok (Value.dict [("a", Value.int 1)]),
    get_robot_part_metadata := fun _ => Except.ok (Value.dict [("b", Value.int 2)]),
    update_robot_metadata := fun _ _ => Except.ok (),
    update_robot_part_metadata := fun _ _ => Except.ok () }

/-- Test fixture: a remote client whose fetches raise. -/
def remoteFetchFails : Remote :=
  { connect := Except.ok 7,
    get_robot_metadata := fun _ => Except.error (Exc.otherError "boom"),
    get_robot_part_metadata := fun _ => Except.error (Exc.otherError "boom"),
    update_robot_metadata := fun _ _ => Except.ok (),
    update_robot_part_metadata := fun _ _ => Except.ok () }

/-- Test fixture: a well-formed robot-scope update command. -/
def cmdRobot : List (String × Value) :=
  [("command", Value.str "update"), ("scope", Value.str "robot"), ("metadata", Value.dict [])]

/-- Test fixture: a well-formed part-scope update command. -/
def cmdPart : List (String × Value) :=
  [("command", Value.str "update"), ("scope", Value.str "part"), ("metadata", Value.dict [])]

/-- Claim C1 (code bug, evaluation at the failing input): for a command
that is not a mapping (here the empty list), `do_command` does NOT return
the structured failure the claim and the spec promise.  The `except`
handler itself evaluates `command.get("scope", "unknown")`, which on a
non-dict raises `AttributeError` out of `do_command` to its caller. -/
theorem do_command_non_mapping_attribute_error :
    do_command [] remoteOk initState (Value.list []) =
      (Except.error (Exc.attributeError "\x27list\x27 object has no attribute \x27get\x27"),
       initState, []) := rfl

/-- Claim C2: for every command that passes all validation (command name
"update", recognized scope, dict metadata, both identity variables set)
and a client and remote update that succeed, `do_command` returns a
success result with `success = true`, the scope, and `robot_id` equal to
the machine id (robot scope) respectively `robot_part_id` equal to the
part id (part scope), and the corresponding remote update call is made. -/
theorem do_command_update_success (env : Env) (remote : Remote) (st : SensorState)
    (entries : List (String × Value)) (m : List (String × Value))
    (rid pid : String) (c : Nat) (st1 : SensorState) (ev1 : List Event)
    (hcmd : dictGet entries "command" = Value.str "update")
    (hmeta : dictGet entries "metadata" = Value.dict m)
    (hrid : getenv env "VIAM_MACHINE_ID" = Option.some rid) (hrid0 : rid ≠ "")
    (hpid : getenv env "VIAM_MACHINE_PART_ID" = Option.some pid) (hpid0 : pid ≠ "")
    (hclient : _get_viam_client env remote st = (Except.ok c, st1, ev1)) :
    (dictGet entries "scope" = Value.str "robot" →
      remote.update_robot_metadata rid (Value.dict m) = Except.ok () →
      (do_command env remote st (Value.dict entries)).1 =
        Except.ok (Value.dict
          [("success", Value.bool true),
           ("message", Value.str "Robot metadata updated successfully"),
           ("scope", Value.str "robot"),
           ("robot_id", Value.str rid)]) ∧
      Event.updateRobotMetadata rid ∈ (do_command env remote st (Value.dict entries)).2.2) ∧
    (dictGet entries "scope" = Value.str "part" →
      remote.update_robot_part_metadata pid (Value.dict m) = Except.ok () →
      (do_command env remote st (Value.dict entries)).1 =
        Except.ok (Value.dict
          [("success", Value.bool true),
           ("message", Value.str "Robot part metadata updated successfully"),
           ("scope", Value.str "part"),
           ("robot_part_id", Value.str pid)]) ∧
      Event.updateRobotPartMetadata pid ∈ (do_command env remote st (Value.dict entries)).2.2) := by
  constructor
  · intro hscope hupd
    simp [do_command, do_command_try, hcmd, hscope, hmeta, hrid, hpid, hrid0, hpid0,
      optFalsy, Value.eqStr, Value.isDict, hclient, hupd]
  · intro hscope hupd
    simp [do_command, do_command_try, hcmd, hscope, hmeta, hrid, hpid, hrid0, hpid0,
      optFalsy, Value.eqStr, Value.isDict, hclient, hupd]

/-- Witness for C2 at concrete inputs: both scopes against `remoteOk`. -/
theorem do_command_update_success_witness :
    ((do_command envFull remoteOk initState (Value.dict cmdRobot)).1 =
      Except.ok (Value.dict
        [("success", Value.bool true),
         ("message", Value.str "Robot metadata updated successfully"),
         ("scope", Value.str "robot"),
         ("robot_id", Value.str "m1")]) ∧
     Event.updateRobotMetadata "m1" ∈
       (do_command envFull remoteOk initState (Value.dict cmdRobot)).2.2) ∧
    ((do_command envFull remoteOk initState (Value.dict cmdPart)).1 =
      Except.ok (Value.dict
        [("success", Value.bool true),
         ("message", Value.str "Robot part metadata updated successfully"),
         ("scope", Value.str "part"),
         ("robot_part_id", Value.str "p1")]) ∧
     Event.updateRobotPartMetadata "p1" ∈
       (do_command envFull remoteOk initState (Value.dict cmdPart)).2.2) :=
  ⟨(do_command_update_success envFull remoteOk initState cmdRobot [] "m1" "p1" 7
      { viam_client := Option.some 7 }
      [Event.readEnv "VIAM_API_KEY", Event.readEnv "VIAM_API_KEY_ID", Event.connect]
      rfl rfl rfl (by decide) rfl (by decide) rfl).1 rfl rfl,
   (do_command_update_success envFull remoteOk initState cmdPart [] "m1" "p1" 7
      { viam_client := Option.some 7 }
      [Event.readEnv "VIAM_API_KEY", Event.readEnv "VIAM_API_KEY_ID", Event.connect]
      rfl rfl rfl (by decide) rfl (by decide) rfl).2 rfl rfl⟩

/-- Claim C3: whenever anything in the body of `get_readings` fails —
missing identity variable, client-connection failure, or an exception
from either remote fetch — `get_readings` returns exactly the pair of
empty documents.  Its total return type records that the exception never
propagates to the caller. -/
theorem get_readings_degrades_to_empty (env : Env) (remote : Remote) (st : SensorState)
    (e : Exc) (st1 : SensorState) (ev : List Event)
    (h : get_readings_try env remote st = (Except.error e, st1, ev)) :
    (get_readings env remote st).1 =
      Value.dict [("robot", Value.dict []), ("part", Value.dict [])] := by
  simp [get_readings, h]

/-- Witness for C3: a remote client whose robot-metadata fetch raises. -/
theorem get_readings_degrades_to_empty_witness :
    (get_readings envFull remoteFetchFails initState).1 =
      Value.dict [("robot", Value.dict []), ("part", Value.dict [])] :=
  get_readings_degrades_to_empty envFull remoteFetchFails initState
    (Exc.otherError "boom") { viam_client := Option.some 7 }
    [Event.readEnv "VIAM_MACHINE_ID", Event.readEnv "VIAM_MACHINE_PART_ID",
     Event.readEnv "VIAM_API_KEY", Event.readEnv "VIAM_API_KEY_ID", Event.connect,
     Event.getRobotMetadata "m1"] rfl

/-- Claim C4: the client getter connects at most once per instance.  A
first successful call stores the returned client in the handle, and a
call on the resulting state returns that same client with an empty event
trace — no environment read and no reconnection. -/
theorem viam_client_memoized (env : Env) (remote : Remote) (st : SensorState)
    (c : Nat) (st1 : SensorState) (ev : List Event)
    (h0 : st.viam_client = Option.none)
    (h : _get_viam_client env remote st = (Except.ok c, st1, ev)) :
    st1.viam_client = Option.some c ∧
    _get_viam_client env remote st1 = (Except.ok c, st1, []) := by
  simp only [_get_viam_client, h0] at h
  split at h
  · simp at h
  · split at h
    · simp at h
    · simp at h
      obtain ⟨he, hst, -⟩ := h
      subst hst
      subst he
      exact ⟨rfl, rfl⟩

/-- Witness for C4: a first connection against `remoteOk` memoizes
client `7`. -/
theorem viam_client_memoized_witness :
    ({ viam_client := Option.some 7 } : SensorState).viam_client = Option.some 7 ∧
    _get_viam_client envFull remoteOk { viam_client := Option.some 7 } =
      (Except.ok 7, { viam_client := Option.some 7 }, []) :=
  viam_client_memoized envFull remoteOk initState 7 { viam_client := Option.some 7 }
    [Event.readEnv "VIAM_API_KEY", Event.readEnv "VIAM_API_KEY_ID", Event.connect] rfl rfl

/-- Claim C5 (counterexample): with the credential variables unset, the
client getter fails with a `ValueError`, not the `ConnectionError` the
claim states. -/
theorem client_missing_creds_raises_value_error :
    (_get_viam_client [] remoteOk initState).1 = Except.error (Exc.valueError credsMsg) ∧
    raisesConnectionError (_get_viam_client [] remoteOk initState).1 = false :=
  ⟨rfl, rfl⟩

/-- Claim C5 (amended): when the client getter fails on an instance with
no memoized client, it raises an error — a `ValueError` when either
credential variable is unresolvable, otherwise the connection failure as
raised by the client constructor — and leaves the client handle unset,
so a later call attempts initialization again. -/
theorem client_failure_leaves_handle_unset (env : Env) (remote : Remote) (st : SensorState)
    (e : Exc) (st1 : SensorState) (ev : List Event)
    (h0 : st.viam_client = Option.none)
    (h : _get_viam_client env remote st = (Except.error e, st1, ev)) :
    st1.viam_client = Option.none ∧
    ((optFalsy (getenv env "VIAM_API_KEY") || optFalsy (getenv env "VIAM_API_KEY_ID")) = true →
      e = Exc.valueError credsMsg) ∧
    ((optFalsy (getenv env "VIAM_API_KEY") || optFalsy (getenv env "VIAM_API_KEY_ID")) = false →
      remote.connect = Except.error e) := by
  simp only [_get_viam_client, h0] at h
  split at h
  · simp at h
    obtain ⟨he, hst, -⟩ := h
    subst hst
    refine ⟨h0, fun _ => he.symm, fun hb => ?_⟩
    simp_all
  · rename_i hb
    split at h
    · rename_i hc
      simp at h
      obtain ⟨he, hst, -⟩ := h
      subst hst
      refine ⟨h0, fun hb2 => ?_, fun _ => ?_⟩
      · simp_all
      · rw [hc, he]
    · simp at h

/-- Witness for the amended C5: missing credentials leave the handle
unset and produce the credentials `ValueError`. -/
theorem client_failure_leaves_handle_unset_witness :
    initState.viam_client = Option.none ∧
    ((optFalsy (getenv [] "VIAM_API_KEY") || optFalsy (getenv [] "VIAM_API_KEY_ID")) = true →
      Exc.valueError credsMsg = Exc.valueError credsMsg) ∧
    ((optFalsy (getenv [] "VIAM_API_KEY") || optFalsy (getenv [] "VIAM_API_KEY_ID")) = false →
      remoteOk.connect = Except.error (Exc.valueError credsMsg)) :=
  client_failure_leaves_handle_unset [] remoteOk initState
    (Exc.valueError credsMsg) initState
    [Event.readEnv "VIAM_API_KEY", Event.readEnv "VIAM_API_KEY_ID"] rfl rfl

/-- Helper shared by the validation-order results: when the spec-side
first-violated-check computation reports an error, `do_command_try`
raises exactly that error, leaves the state untouched, and performs
nothing beyond environment reads. -/
theorem do_command_try_first_failure (env : Env) (remote : Remote) (st : SensorState)
    (command : Value) (e : Exc)
    (h : firstValidationFailure command env = Option.some e) :
    (do_command_try env remote st command).1 = Except.error e ∧
    (do_command_try env remote st command).2.1 = st ∧
    ((do_command_try env remote st command).2.2).all Event.isEnvRead = true := by
  cases command with
  | none => simp_all [firstValidationFailure, do_command_try]
  | bool b => simp_all [firstValidationFailure, do_command_try]
  | int n => simp_all [firstValidationFailure, do_command_try]
  | str s => simp_all [firstValidationFailure, do_command_try]
  | list xs => simp_all [firstValidationFailure, do_command_try]
  | dict entries =>
      cases hc : (dictGet entries "command").eqStr "update" with
      | false => simp_all [firstValidationFailure, do_command_try]
      | true =>
      cases hsp : (dictGet entries "scope").eqStr "part" with
      | true =>
        cases hm : (dictGet entries "metadata").isDict with
        | false => simp_all [firstValidationFailure, do_command_try]
        | true =>
          cases h4 : optFalsy (getenv env "VIAM_MACHINE_ID") with
          | true => simp_all [firstValidationFailure, do_command_try, Event.isEnvRead]
          | false =>
            cases h5 : optFalsy (getenv env "VIAM_MACHINE_PART_ID") with
            | true => simp_all [firstValidationFailure, do_command_try, Event.isEnvRead]
            | false => simp_all [firstValidationFailure]
      | false =>
      cases hsr : (dictGet entries "scope").eqStr "robot" with
      | false => simp_all [firstValidationFailure, do_command_try]
      | true =>
        cases hm : (dictGet entries "metadata").isDict with
        | false => simp_all [firstValidationFailure, do_command_try]
        | true =>
          cases h4 : optFalsy (getenv env "VIAM_MACHINE_ID") with
          | true => simp_all [firstValidationFailure, do_command_try, Event.isEnvRead]
          | false =>
            cases h5 : optFalsy (getenv env "VIAM_MACHINE_PART_ID") with
            | true => simp_all [firstValidationFailure, do_command_try, Event.isEnvRead]
            | false => simp_all [firstValidationFailure]

/-- Claim C6: `do_command` performs its validation checks in the fixed
order — command is a mapping, command name is "update", scope is
recognized, metadata is a mapping, identity variables present — and for
a dict command violating any of them, the raised validation error and
the reported failure message are those of the first violated check, as
computed by the spec-side `firstValidationFailure`. -/
theorem validation_first_failure_reported (env : Env) (remote : Remote) (st : SensorState)
    (entries : List (String × Value)) (e : Exc)
    (h : firstValidationFailure (Value.dict entries) env = Option.some e) :
    (do_command_try env remote st (Value.dict entries)).1 = Except.error e ∧
    (do_command env remote st (Value.dict entries)).1 = Except.ok (failResult entries e) := by
  have hsplit := do_command_try_first_failure env remote st (Value.dict entries) e h
  rcases hdc : do_command_try env remote st (Value.dict entries) with ⟨r, st2, ev2⟩
  rw [hdc] at hsplit
  obtain ⟨h1, -, -⟩ := hsplit
  subst h1
  exact ⟨rfl, by simp [do_command, hdc]⟩

/-- Witness for C6 at the claim's own example: a command with an invalid
scope AND a non-mapping metadata reports the invalid-scope message. -/
theorem validation_first_failure_reported_witness :
    (do_command_try [] remoteOk initState
      (Value.dict [("command", Value.str "update"), ("scope", Value.str "bogus"),
                   ("metadata", Value.int 5)])).1 =
      Except.error (Exc.valueError
        "Invalid scope: bogus. Must be \x27part\x27 or \x27robot\x27.") ∧
    (do_command [] remoteOk initState
      (Value.dict [("command", Value.str "update"), ("scope", Value.str "bogus"),
                   ("metadata", Value.int 5)])).1 =
      Except.ok (failResult
        [("command", Value.str "update"), ("scope", Value.str "bogus"),
         ("metadata", Value.int 5)]
        (Exc.valueError "Invalid scope: bogus. Must be \x27part\x27 or \x27robot\x27.")) :=
  validation_first_failure_reported [] remoteOk initState
    [("command", Value.str "update"), ("scope", Value.str "bogus"), ("metadata", Value.int 5)]
    (Exc.valueError "Invalid scope: bogus. Must be \x27part\x27 or \x27robot\x27.") rfl

/-- Claim C7: with `VIAM_MACHINE_ID` unset, `get_readings` returns the
empty-document pair, and `do_command` on a command passing the earlier
shape checks returns the structured failure whose message names the
missing variable; neither outcome is a raised exception. -/
theorem missing_machine_id_handled (env : Env) (remote : Remote) (st : SensorState)
    (entries : List (String × Value))
    (h0 : getenv env "VIAM_MACHINE_ID" = Option.none) :
    (get_readings env remote st).1 =
      Value.dict [("robot", Value.dict []), ("part", Value.dict [])] ∧
    (dictGet entries "command" = Value.str "update" →
      (dictGet entries "scope" = Value.str "part" ∨ dictGet entries "scope" = Value.str "robot") →
      (dictGet entries "metadata").isDict = true →
      (do_command env remote st (Value.dict entries)).1 =
        Except.ok (failResult entries
          (Exc.valueError "VIAM_MACHINE_ID environment variable is required"))) := by
  constructor
  · simp [get_readings, get_readings_try, h0, optFalsy]
  · intro h1 h2 h3
    rcases h2 with h2 | h2 <;>
      simp [do_command, do_command_try, h1, h2, h3, h0, optFalsy, Value.eqStr]

/-- Witness for C7 on the environment lacking `VIAM_MACHINE_ID`. -/
theorem missing_machine_id_handled_witness :
    ((get_readings envNoMachineId remoteOk initState).1 =
      Value.dict [("robot", Value.dict []), ("part", Value.dict [])]) ∧
    ((do_command envNoMachineId remoteOk initState (Value.dict cmdPart)).1 =
      Except.ok (failResult cmdPart
        (Exc.valueError "VIAM_MACHINE_ID environment variable is required"))) :=
  ⟨(missing_machine_id_handled envNoMachineId remoteOk initState cmdPart rfl).1,
   (missing_machine_id_handled envNoMachineId remoteOk initState cmdPart rfl).2
     rfl (Or.inl rfl) rfl⟩

/-- Claim C8: on an instance with no memoized client, credential
resolution fails exactly when `VIAM_API_KEY` or `VIAM_API_KEY_ID` is
unset or the empty string (falsiness characterized in the first
conjunct), producing the credentials `ValueError`; when both are
non-empty the getter proceeds to connection establishment — its outcome
is the connect outcome and the connect side effect occurs. -/
theorem credential_resolution_iff_falsy (env : Env) (remote : Remote) (st : SensorState)
    (h0 : st.viam_client = Option.none) :
    (optFalsy (getenv env "VIAM_API_KEY") = true ↔
      (getenv env "VIAM_API_KEY" = Option.none ∨ getenv env "VIAM_API_KEY" = Option.some "")) ∧
    ((optFalsy (getenv env "VIAM_API_KEY") || optFalsy (getenv env "VIAM_API_KEY_ID")) = true →
      (_get_viam_client env remote st).1 = Except.error (Exc.valueError credsMsg)) ∧
    ((optFalsy (getenv env "VIAM_API_KEY") || optFalsy (getenv env "VIAM_API_KEY_ID")) = false →
      (_get_viam_client env remote st).1 = remote.connect ∧
        Event.connect ∈ (_get_viam_client env remote st).2.2) := by
  refine ⟨?_, fun hb => ?_, fun hb => ?_⟩
  · cases hk : getenv env "VIAM_API_KEY" with
    | none => simp [optFalsy]
    | some s => simp [optFalsy]
  · simp [_get_viam_client, h0, hb]
  · simp only [_get_viam_client, h0, hb]
    cases hc : remote.connect with
    | error e => simp
    | ok c => simp

/-- Witness for C8 on the fully populated environment. -/
theorem credential_resolution_iff_falsy_witness :
    (optFalsy (getenv envFull "VIAM_API_KEY") = true ↔
      (getenv envFull "VIAM_API_KEY" = Option.none ∨
        getenv envFull "VIAM_API_KEY" = Option.some "")) ∧
    ((optFalsy (getenv envFull "VIAM_API_KEY") ||
        optFalsy (getenv envFull "VIAM_API_KEY_ID")) = true →
      (_get_viam_client envFull remoteOk initState).1 =
        Except.error (Exc.valueError credsMsg)) ∧
    ((optFalsy (getenv envFull "VIAM_API_KEY") ||
        optFalsy (getenv envFull "VIAM_API_KEY_ID")) = false →
      (_get_viam_client envFull remoteOk initState).1 = remoteOk.connect ∧
        Event.connect ∈ (_get_viam_client envFull remoteOk initState).2.2) :=
  credential_resolution_iff_falsy envFull remoteOk initState rfl

/-- Claim C9: every invocation of `get_geometries` raises
`NotImplementedError` (and so never returns a value), touching neither
the state nor the remote client. -/
theorem get_geometries_always_raises (st : SensorState) :
    get_geometries st = (Except.error Exc.notImplementedError, st, []) := rfl

/-- Claim C10: a command failing any validation or environment check
leaves the instance exactly as it was — the state (hence the memoized
client handle) is unchanged and every event in the trace is a mere
environment read, so no connection and no remote update call happens. -/
theorem failed_validation_no_side_effects (env : Env) (remote : Remote) (st : SensorState)
    (command : Value)
    (h : (firstValidationFailure command env).isSome = true) :
    (do_command env remote st command).2.1 = st ∧
    ((do_command env remote st command).2.2).all Event.isEnvRead = true := by
  obtain ⟨e, he⟩ := Option.isSome_iff_exists.mp h
  have hsplit := do_command_try_first_failure env remote st command e he
  rcases hdc : do_command_try env remote st command with ⟨r, st2, ev2⟩
  rw [hdc] at hsplit
  obtain ⟨h1, h2, h3⟩ := hsplit
  subst h1
  cases command <;> simp_all [do_command, hdc]

/-- Witness for C10: a non-mapping command changes nothing. -/
theorem failed_validation_no_side_effects_witness :
    (do_command [] remoteOk initState (Value.int 3)).2.1 = initState ∧
    ((do_command [] remoteOk initState (Value.int 3)).2.2).all Event.isEnvRead = true :=
  failed_validation_no_side_effects [] remoteOk initState (Value.int 3) rfl

end ViamUserMetadata
